import Mathlib

/-!
Shallow embedding of the Kibana saved-object inventory scripts
(`kibana_inventory.py` and `kibana_inventory_gem.py`).

The remote Kibana endpoint is modelled as a store giving, for every
space and object type, the payload the corresponding HTTP GET request
would return, together with flags saying which requests raise a
transport error (`requests.exceptions.RequestException`).  Every
function of the scripts that the claims mention is translated into a
Lean function over this store model.  Request-issuing loops are
instrumented to also return the list of requests they perform, so that
request-counting properties can be stated; the components computing
the script's actual result mirror the Python control flow exactly.
-/

namespace Kibana

/-- The `attributes` sub-object of a generic saved object
(`obj["attributes"]`), with its two optional fields. -/
structure Attributes where
  title : Option String
  description : Option String
  deriving Repr, DecidableEq

/-- A raw entry of a `saved_objects` response array, as the scripts
read it: `id` and `type` are always present (indexed with `obj["id"]`,
`obj["type"]`), everything else is read with `.get` and a default. -/
structure SavedObj where
  id : String
  type : String
  attributes : Option Attributes
  updated_at : Option String
  created_at : Option String
  version : Option String
  deriving Repr, DecidableEq

/-- A raw entry of the `data_view` array returned by the data-views
endpoint: `dv["id"]` is indexed directly, `title` and `name` are read
with `.get` and a default. -/
structure DataView where
  id : String
  title : Option String
  name : Option String
  deriving Repr, DecidableEq

/-- A space as returned by `/api/spaces/space` in `kibana_inventory.py`:
`space["id"]` is indexed directly, `space.get("name", space_id)`
falls back to the id. -/
structure Space where
  id : String
  name : Option String
  deriving Repr, DecidableEq

/-- The remote store behind `kibana_inventory.py`'s requests.
`spaces` is the list returned by space enumeration (`get_all_spaces`
returns `[]` both when the request fails and when the server has no
spaces, and the callers treat the two identically).  `findObjects`
gives the `saved_objects` payload of the single
`/s/{space_id}/api/saved_objects/_find` request issued for a
`(space_id, type)` pair, `dataViews` the `data_view` payload of
`/s/{space_id}/api/data_views`; the two `Fails` flags say which of
those requests raise a `RequestException` instead. -/
structure Store where
  spaces : List Space
  findObjects : String → String → List SavedObj
  findFails : String → String → Bool
  dataViews : String → List DataView
  dataViewsFails : String → Bool

/-- The dict built for each saved object inside
`get_kibana_objects_by_type` (`kibana_inventory.py` lines 160-169). -/
structure ObjectInfo where
  space_id : String
  id : String
  type : String
  title : String
  description : String
  updated_at : String
  deriving Repr, DecidableEq

/-- `object_info` construction of `get_kibana_objects_by_type`:
`obj.get("attributes", {}).get("title", "N/A")`,
`obj.get("attributes", {}).get("description", "")`,
`obj.get("updated_at", "N/A")`. -/
def objectInfoOfSavedObj (space_id : String) (obj : SavedObj) : ObjectInfo :=
  { space_id := space_id
    id := obj.id
    type := obj.type
    title := ((obj.attributes.getD ⟨none, none⟩).title).getD "N/A"
    description := ((obj.attributes.getD ⟨none, none⟩).description).getD ""
    updated_at := obj.updated_at.getD "N/A" }

/-- `get_kibana_objects_by_type`: one `_find` request per object type
(`per_page` 10000, no `page` parameter, hence a single page); on a
`RequestException` the type contributes nothing and the loop moves on
to the next type, keeping `all_objects` gathered so far. -/
def get_kibana_objects_by_type (store : Store) (space_id : String)
    (object_types : List String) : List ObjectInfo :=
  object_types.foldl
    (fun all_objects obj_type =>
      if store.findFails space_id obj_type then all_objects
      else all_objects ++
        (store.findObjects space_id obj_type).map (objectInfoOfSavedObj space_id))
    []

/-- `data_view_info` construction of `get_data_views`: type is the
literal `"data-view"`, `dv.get("title", "N/A")`, description is
`dv.get("name", "")`, `updated_at` is the literal `"N/A"`. -/
def dataViewInfo (space_id : String) (dv : DataView) : ObjectInfo :=
  { space_id := space_id
    id := dv.id
    type := "data-view"
    title := dv.title.getD "N/A"
    description := dv.name.getD ""
    updated_at := "N/A" }

/-- `get_data_views`: a single request to the data-views endpoint;
returns `[]` on a `RequestException`. -/
def get_data_views (store : Store) (space_id : String) : List ObjectInfo :=
  if store.dataViewsFails space_id then []
  else (store.dataViews space_id).map (dataViewInfo space_id)

/-- The hardcoded `object_types` list of `generate_kibana_inventory`. -/
def inventory_object_types : List String :=
  ["dashboard", "visualization", "search", "lens",
   "canvas-workpad", "map", "graph-workspace"]

/-- Python `dict` insertion `d[k] = v` on an association list:
replaces in place when the key exists, appends otherwise. -/
def dictInsert {α : Type} (k : String) (v : α) :
    List (String × α) → List (String × α)
  | [] => [(k, v)]
  | (k2, v2) :: rest =>
      if k2 = k then (k, v) :: rest else (k2, v2) :: dictInsert k v rest

/-- Python `dict` lookup `d[k]` on an association list. -/
def dictLookup {α : Type} (k : String) : List (String × α) → Option α
  | [] => none
  | (k2, v) :: rest => if k2 = k then some v else dictLookup k rest

/-- `defaultdict(list)` append `d[k].append(v)` on an association list:
extends the entry in place when the key exists, creates it otherwise. -/
def dictAppend {α : Type} (k : String) (v : α) :
    List (String × List α) → List (String × List α)
  | [] => [(k, [v])]
  | (k2, vs) :: rest =>
      if k2 = k then (k2, vs ++ [v]) :: rest
      else (k2, vs) :: dictAppend k v rest

/-- The `objects_by_type` grouping pass of `generate_kibana_inventory`:
`for obj in all_objects: objects_by_type[obj["type"]].append(obj)`. -/
def groupByType (objs : List ObjectInfo) : List (String × List ObjectInfo) :=
  objs.foldl (fun acc obj => dictAppend obj.type obj acc) []

/-- The per-space value stored in the `inventory` dict
(`kibana_inventory.py` lines 270-276). -/
structure SpaceEntry where
  space_name : String
  space_id : String
  total_objects : Nat
  objects_by_type : List (String × List ObjectInfo)
  type_counts : List (String × Nat)
  deriving Repr, DecidableEq

/-- The body of `generate_kibana_inventory`'s per-space loop: fetch the
generic saved objects and the data views, concatenate, group by type,
and record `total_objects = len(all_objects)` and
`type_counts = {t: len(objects) for t, objects in objects_by_type}`. -/
def buildSpaceEntry (store : Store) (space : Space) : SpaceEntry :=
  let space_id := space.id
  let space_name := space.name.getD space.id
  let saved_objects :=
    get_kibana_objects_by_type store space_id inventory_object_types
  let data_views := get_data_views store space_id
  let all_objects := saved_objects ++ data_views
  let obt := groupByType all_objects
  { space_name := space_name
    space_id := space_id
    total_objects := all_objects.length
    objects_by_type := obt
    type_counts := obt.map (fun p => (p.1, p.2.length)) }

/-- `generate_kibana_inventory`: returns `{}` when no spaces were
retrieved, otherwise one `inventory[space_id]` entry per space. -/
def generate_kibana_inventory (store : Store) : List (String × SpaceEntry) :=
  if store.spaces.isEmpty then []
  else store.spaces.foldl
    (fun inventory space => dictInsert space.id (buildSpaceEntry store space) inventory)
    []

/-- The hardcoded `object_types` list of `search_object_by_id`
(`kibana_inventory.py` lines 421-435); it includes `"index-pattern"`. -/
def search_object_types : List String :=
  ["dashboard", "visualization", "search", "lens",
   "canvas-workpad", "map", "graph-workspace",
   "index-pattern", "config", "url", "action",
   "query", "tag", "alert", "event-annotation-group",
   "cases", "metrics-data-source", "links",
   "canvas-element", "osquery-saved-query",
   "osquery-pack", "csp-rule-template",
   "infrastructure-monitoring-log-view",
   "threshold-explorer-view", "uptime-dynamic-settings",
   "synthetics-privates-locations", "apm-indices",
   "infrastructure-ui-source", "inventory-view",
   "infra-custom-dashboards", "metrics-explorer-view",
   "apm-service-group", "apm-custom-dashboards"]

/-- The dict built for a matching object in `search_object_by_id`
(lines 462-472 for generic saved objects, 490-500 for data views):
unlike the inventory records it also carries `space_name`,
`created_at` and `version`. -/
structure SearchRecord where
  space_id : String
  space_name : String
  id : String
  type : String
  title : String
  description : String
  updated_at : String
  created_at : String
  version : String
  deriving Repr, DecidableEq

/-- `object_info` for a matching generic saved object in
`search_object_by_id` (lines 462-472). -/
def searchRecordOfSavedObj (space_id space_name : String)
    (obj : SavedObj) : SearchRecord :=
  { space_id := space_id
    space_name := space_name
    id := obj.id
    type := obj.type
    title := ((obj.attributes.getD ⟨none, none⟩).title).getD "N/A"
    description := ((obj.attributes.getD ⟨none, none⟩).description).getD ""
    updated_at := obj.updated_at.getD "N/A"
    created_at := obj.created_at.getD "N/A"
    version := obj.version.getD "N/A" }

/-- `object_info` for a matching data view in `search_object_by_id`
(lines 490-500): type is the literal `"data-view"`, description is
`dv.get("name", "")`, and `updated_at`, `created_at`, `version` are
all the literal `"N/A"`. -/
def searchRecordOfDataView (space_id space_name : String)
    (dv : DataView) : SearchRecord :=
  { space_id := space_id
    space_name := space_name
    id := dv.id
    type := "data-view"
    title := dv.title.getD "N/A"
    description := dv.name.getD ""
    updated_at := "N/A"
    created_at := "N/A"
    version := "N/A" }

/-- The per-space body of `search_object_by_id`'s loop: one `_find`
request per type in `search_object_types` (appending a record for each
returned object whose `id` equals the target, skipping the type on a
`RequestException`), then one data-views request (likewise filtered by
exact id equality, skipped on a `RequestException`). -/
def searchSpace (store : Store) (target : String) (space : Space) :
    List SearchRecord :=
  let space_id := space.id
  let space_name := space.name.getD space.id
  let fromTypes := search_object_types.foldl
    (fun acc obj_type =>
      if store.findFails space_id obj_type then acc
      else acc ++
        ((store.findObjects space_id obj_type).filter (fun o => o.id = target)).map
          (searchRecordOfSavedObj space_id space_name))
    []
  let fromDataViews :=
    if store.dataViewsFails space_id then []
    else ((store.dataViews space_id).filter (fun dv => dv.id = target)).map
      (searchRecordOfDataView space_id space_name)
  fromTypes ++ fromDataViews

/-- `search_object_by_id`: returns `[]` when no spaces were retrieved,
otherwise visits every space in order, accumulating
`matching_objects`; it never stops early on a match. -/
def search_object_by_id (store : Store) (target : String) :
    List SearchRecord :=
  if store.spaces.isEmpty then []
  else store.spaces.foldl
    (fun matching_objects space => matching_objects ++ searchSpace store target space)
    []

/-- A request issued to the remote store by `kibana_inventory.py`
after space enumeration (the per-space fetches). -/
inductive Request
  | find (space_id : String) (obj_type : String)
  | dataViewsOf (space_id : String)
  deriving Repr, DecidableEq

/-- The per-space fetches `generate_kibana_inventory` issues: every
type request and the data-views request are issued unconditionally for
each space (a failure only discards the payload), and nothing at all
is issued when `get_all_spaces` came back empty, since the function
returns `{}` before its per-space loop. -/
def inventoryRequests (store : Store) : List Request :=
  if store.spaces.isEmpty then []
  else store.spaces.foldl
    (fun reqs space =>
      reqs ++ inventory_object_types.map (Request.find space.id) ++
        [Request.dataViewsOf space.id])
    []

/-- The per-space fetches `search_object_by_id` issues: one `_find`
request per type in `search_object_types` and one data-views request
per space; nothing at all when `get_all_spaces` came back empty, since
the function returns `[]` before its per-space loop. -/
def searchRequests (store : Store) : List Request :=
  if store.spaces.isEmpty then []
  else store.spaces.foldl
    (fun reqs space =>
      reqs ++ search_object_types.map (Request.find space.id) ++
        [Request.dataViewsOf space.id])
    []

/-- The search branch of `main` (`kibana_inventory.py` lines 579-602):
runs the search, displays/export the results, and returns 0
unconditionally — also when the search came back empty because space
enumeration failed.  The pair is (completion status, search result). -/
def main_search (store : Store) (object_id : String) :
    Nat × List SearchRecord :=
  let matching_objects := search_object_by_id store object_id
  (0, matching_objects)

/-- The inventory branch of `main` (lines 605-632): generates the
inventory and returns 1 when it is empty (`if not inventory: return 1`),
0 otherwise.  The pair is (completion status, inventory). -/
def main_inventory (store : Store) : Nat × List (String × SpaceEntry) :=
  let inventory := generate_kibana_inventory store
  if inventory.isEmpty then (1, inventory) else (0, inventory)

/-- A space as `kibana_inventory_gem.py`'s `main` reads it:
`space.get("id")` and `space.get("name")` may both be absent. -/
structure GemSpace where
  id : Option String
  name : Option String
  deriving Repr, DecidableEq

/-- The entry the gem script keeps per object:
`{"id": obj["id"], "type": obj["type"]}`. -/
structure GemObj where
  id : String
  type : String
  deriving Repr, DecidableEq

/-- The remote store behind `kibana_inventory_gem.py`'s requests.
`findPage space_id obj_type page` is the `saved_objects` payload
(restricted to the two fields the script reads) of the paged `_find`
request, `none` when that request raises a `RequestException`;
`total` is the declared `total` count carried in every successful
response for that `(space, type)` pair (`data.get('total', 0)`), fixed
across pages of an unchanging remote store. -/
structure GemStore where
  spaces : List GemSpace
  findPage : String → String → Nat → Option (List GemObj)
  total : String → String → Nat

/-- Result of the gem's `while True` page loop for one object type:
the entries it appended, the value of `page` when it broke out, and
the pages it actually requested. -/
structure LoopOut where
  entries : List GemObj
  page : Nat
  reqs : List Nat
  deriving Repr, DecidableEq

/-- The `while True` page loop of `list_kibana_objects_in_space`,
entered with the current value of `page`: request page `page`; on a
`RequestException` break (leaving `page` unchanged); otherwise extend
the entries and break if `data.get('total', 0) <= page * per_page`,
else increment `page` and repeat.  `reqs` records each page
requested, including a failing one. -/
def pageLoop (store : GemStore) (space_id obj_type : String)
    (per_page : Nat) (hp : 0 < per_page) (page : Nat) : LoopOut :=
  match store.findPage space_id obj_type page with
  | none => { entries := [], page := page, reqs := [page] }
  | some objects =>
      if h : store.total space_id obj_type ≤ page * per_page then
        { entries := objects, page := page, reqs := [page] }
      else
        let rest := pageLoop store space_id obj_type per_page hp (page + 1)
        { entries := objects ++ rest.entries
          page := rest.page
          reqs := page :: rest.reqs }
  termination_by store.total space_id obj_type - page
  decreasing_by
    simp_wf
    have h1 : page * 1 ≤ page * per_page := Nat.mul_le_mul_left page hp
    omega

/-- The hardcoded `object_types` list of
`list_kibana_objects_in_space` (`kibana_inventory_gem.py` 113-119). -/
def gem_object_types : List String :=
  ["config", "config-global", "url", "index-pattern", "action", "query",
   "tag", "graph-workspace", "alert", "search", "visualization",
   "event-annotation-group", "dashboard", "lens", "cases",
   "metrics-data-source", "links", "canvas-element", "canvas-workpad",
   "osquery-saved-query", "osquery-pack", "csp-rule-template", "map",
   "infrastructure-monitoring-log-view", "threshold-explorer-view",
   "uptime-dynamic-settings", "synthetics-privates-locations",
   "apm-indices", "infrastructure-ui-source", "inventory-view",
   "infra-custom-dashboards", "metrics-explorer-view",
   "apm-service-group", "apm-custom-dashboards", "timelion-sheet"]

/-- The `for obj_type in object_types` sweep of
`list_kibana_objects_in_space`, threading the `page` variable, which
the script initializes to 1 once, before the type loop, and never
resets between types.  Besides `all_objects` it returns, per type, the
pages actually requested. -/
def sweep (store : GemStore) (space_id : String) :
    List String → Nat → List GemObj × List (String × List Nat)
  | [], _ => ([], [])
  | obj_type :: rest_types, page =>
      let out := pageLoop store space_id obj_type 1000 (by decide) page
      let rest := sweep store space_id rest_types out.page
      (out.entries ++ rest.1, (obj_type, out.reqs) :: rest.2)

/-- `list_kibana_objects_in_space`: `page = 1`, `per_page = 1000`,
then the type sweep; returns `all_objects`. -/
def list_kibana_objects_in_space (store : GemStore) (space_id : String) :
    List GemObj :=
  (sweep store space_id gem_object_types 1).1

/-- `kibana_inventory_gem.py`'s `main` after logging setup: returns
early when no spaces were retrieved; otherwise, per space, skips it
when `space.get("id")` is falsy, and stores its object list in
`all_kibana_objects_by_space` only when that list is non-empty
(`if objects_in_space: ... else: log "No objects found"`). -/
def gem_main (store : GemStore) : List (String × List GemObj) :=
  if store.spaces.isEmpty then []
  else store.spaces.foldl
    (fun all_kibana_objects_by_space space =>
      match space.id with
      | none => all_kibana_objects_by_space
      | some space_id =>
          let objects_in_space := list_kibana_objects_in_space store space_id
          if objects_in_space.isEmpty then all_kibana_objects_by_space
          else dictInsert space_id objects_in_space all_kibana_objects_by_space)
    []

/-- Modelled from the spec: the repository's first-match search
variant is not among the files under `src` (only the exhaustive
`search_object_by_id` is).  Per §4.6/§9 of the spec, the variant
queries each space with a server-side filter approximating the target
id — modelled as the oracle `fuzzy`, whose results carry no exactness
guarantee — then locally re-validates each returned id by exact
equality before accepting it, and stops at the first validated hit
across spaces, skipping all remaining spaces.  This helper walks the
space list in order, returning the accepted record (if any) together
with the ids of the spaces actually queried. -/
def firstMatchGo (fuzzy : String → List SavedObj) (target : String) :
    List Space → Option SearchRecord × List String
  | [] => (none, [])
  | space :: rest =>
      match (fuzzy space.id).filter (fun o => o.id = target) with
      | [] =>
          let r := firstMatchGo fuzzy target rest
          (r.1, space.id :: r.2)
      | o :: _ =>
          (some (searchRecordOfSavedObj space.id (space.name.getD space.id) o),
           [space.id])

/-- Modelled from the spec: first-match mode of the Identifier Search
Engine (§4.6), driven over the enumerated spaces in order. -/
def search_first_match (store : Store) (fuzzy : String → List SavedObj)
    (target : String) : Option SearchRecord × List String :=
  firstMatchGo fuzzy target store.spaces

/-! Concrete store states used to evaluate the embedded functions. -/

/-- A store whose space enumeration came back empty (failed or no
spaces — the scripts cannot tell the two apart). -/
def storeEmptySpaces : Store :=
  { spaces := []
    findObjects := fun _ _ => []
    findFails := fun _ _ => false
    dataViews := fun _ => []
    dataViewsFails := fun _ => false }

/-- A store with a single space that yields zero objects of every
kind. -/
def storeOneEmptySpace : Store :=
  { spaces := [{ id := "solo", name := none }]
    findObjects := fun _ _ => []
    findFails := fun _ _ => false
    dataViews := fun _ => []
    dataViewsFails := fun _ => false }

/-- A store with spaces `alpha` and `beta`, each holding exactly one
object whose id is `target-1` (a dashboard in `alpha`, a lens in
`beta`), and nothing else. -/
def storeTwoSpacesDup : Store :=
  { spaces := [{ id := "alpha", name := some "Alpha" },
               { id := "beta", name := some "Beta" }]
    findObjects := fun space_id obj_type =>
      if space_id = "alpha" ∧ obj_type = "dashboard" then
        [{ id := "target-1", type := "dashboard",
           attributes := some { title := some "A dash", description := none },
           updated_at := none, created_at := none, version := none }]
      else if space_id = "beta" ∧ obj_type = "lens" then
        [{ id := "target-1", type := "lens",
           attributes := some { title := some "B lens", description := none },
           updated_at := none, created_at := none, version := none }]
      else []
    findFails := fun _ _ => false
    dataViews := fun _ => []
    dataViewsFails := fun _ => false }

/-- A store with a single space `default` in which one stored data
view with id `dup-1` is served both by the generic saved-objects query
(as an `index-pattern`, a type the search sweep includes) and by the
dedicated data-view endpoint. -/
def storeSameSpaceDup : Store :=
  { spaces := [{ id := "default", name := some "Default" }]
    findObjects := fun space_id obj_type =>
      if space_id = "default" ∧ obj_type = "index-pattern" then
        [{ id := "dup-1", type := "index-pattern",
           attributes := some { title := some "logs-*", description := none },
           updated_at := none, created_at := none, version := none }]
      else []
    findFails := fun _ _ => false
    dataViews := fun space_id =>
      if space_id = "default" then
        [{ id := "dup-1", title := some "logs-*", name := some "Logs" }]
      else []
    dataViewsFails := fun _ => false }

/-- A store with three object-less spaces `s1`, `s2`, `s3`, used to
drive the first-match search model. -/
def storeThreeSpaces : Store :=
  { spaces := [{ id := "s1", name := none }, { id := "s2", name := none },
               { id := "s3", name := none }]
    findObjects := fun _ _ => []
    findFails := fun _ _ => false
    dataViews := fun _ => []
    dataViewsFails := fun _ => false }

/-- A concrete fuzzy server-side filter for the first-match model: in
space `s1` it surfaces only a near-miss id, in `s2` a junk candidate
followed by the true hit, in `s3` the true hit again (never reached). -/
def fuzzyOracle : String → List SavedObj := fun space_id =>
  if space_id = "s1" then
    [{ id := "target-9x", type := "lens", attributes := none,
       updated_at := none, created_at := none, version := none }]
  else if space_id = "s2" then
    [{ id := "junk", type := "lens", attributes := none,
       updated_at := none, created_at := none, version := none },
     { id := "target-9", type := "lens",
       attributes := some { title := some "Q3 Funnel", description := none },
       updated_at := none, created_at := none, version := none }]
  else
    [{ id := "target-9", type := "lens", attributes := none,
       updated_at := none, created_at := none, version := none }]

/-- A gem store with one space and an empty payload on every page:
type `config` declares 2500 objects, type `config-global` 1500, every
other type 0.  (The declared totals alone drive the page loop; the
script never compares them with the payload lengths.) -/
def gstorePages : GemStore :=
  { spaces := [{ id := some "s", name := some "S" }]
    findPage := fun _ _ _ => some []
    total := fun _ obj_type =>
      if obj_type = "config" then 2500
      else if obj_type = "config-global" then 1500
      else 0 }

/-- A gem store in which `config` declares 2500 objects and
`config-global` declares 2500 objects, every page request succeeds,
and each `config-global` page `k` serves a marker object `cg⟨k⟩`. -/
def gstoreNoFail : GemStore :=
  { spaces := [{ id := some "s", name := some "S" }]
    findPage := fun _ obj_type page =>
      if obj_type = "config-global" then
        some [{ id := if page = 2 then "cg2" else if page = 3 then "cg3" else "cgx",
                type := "config-global" }]
      else some []
    total := fun _ obj_type =>
      if obj_type = "config" then 2500
      else if obj_type = "config-global" then 2500
      else 0 }

/-- Like `gstoreNoFail`, except that the request for page 2 of type
`config` raises a `RequestException`. -/
def gstoreFailPage2 : GemStore :=
  { spaces := [{ id := some "s", name := some "S" }]
    findPage := fun _ obj_type page =>
      if obj_type = "config-global" then
        some [{ id := if page = 2 then "cg2" else if page = 3 then "cg3" else "cgx",
                type := "config-global" }]
      else if obj_type = "config" ∧ page = 2 then none
      else some []
    total := fun _ obj_type =>
      if obj_type = "config" then 2500
      else if obj_type = "config-global" then 2500
      else 0 }

/-- A gem store with one space `empty-space` that yields zero objects
of every type. -/
def gstoreEmptySpace : GemStore :=
  { spaces := [{ id := some "empty-space", name := some "Empty" }]
    findPage := fun _ _ _ => some []
    total := fun _ _ => 0 }

/-- A gem store with one space `g` holding a single `config` object. -/
def gstoreOneObj : GemStore :=
  { spaces := [{ id := some "g", name := some "G" }]
    findPage := fun _ obj_type _ =>
      if obj_type = "config" then some [{ id := "c1", type := "config" }]
      else some []
    total := fun _ obj_type => if obj_type = "config" then 1 else 0 }

/-! Helper notions used by the statements: the Python expressions
`sum(type_counts.values())` and `sum(len(v) for v in
objects_by_type.values())` of the claimed invariant. -/

/-- `sum(d.values())` for a counts dict. -/
def sumCounts (l : List (String × Nat)) : Nat :=
  l.foldr (fun p n => p.2 + n) 0

/-- `sum(len(v) for v in d.values())` for a dict of lists. -/
def sumLens {α : Type} (l : List (String × List α)) : Nat :=
  l.foldr (fun p n => p.2.length + n) 0

/-- `keyMem k l` says the dict `l` has an entry under key `k`. -/
def keyMem {α : Type} (k : String) (l : List (String × α)) : Prop :=
  ∃ v, (k, v) ∈ l

/-- The number of objects a space's endpoints serve whose id equals
the target: across the generic `_find` responses for the searched
types, plus the data-view response.  This is what "the space contains
`n` objects with the target id" means against the store model. -/
def spaceMatchCount (store : Store) (target space_id : String) : Nat :=
  (search_object_types.map (fun obj_type =>
      ((store.findObjects space_id obj_type).filter
        (fun o => o.id = target)).length)).sum
  + ((store.dataViews space_id).filter (fun dv => dv.id = target)).length

/-! Lemmas about the dict operations. -/

theorem sumCounts_map_length {α : Type} (l : List (String × List α)) :
    sumCounts (l.map fun p => (p.1, p.2.length)) = sumLens l := by
  induction l with
  | nil => rfl
  | cons p rest ih => simp [sumCounts, sumLens] at ih ⊢; omega

theorem sumLens_dictAppend {α : Type} (k : String) (v : α)
    (l : List (String × List α)) :
    sumLens (dictAppend k v l) = sumLens l + 1 := by
  induction l with
  | nil => simp [dictAppend, sumLens]
  | cons p rest ih =>
      by_cases h : p.1 = k
      · cases p; simp_all [dictAppend, sumLens]; omega
      · cases p; simp_all [dictAppend, sumLens]; omega

theorem sumLens_groupByType_aux (objs : List ObjectInfo)
    (acc : List (String × List ObjectInfo)) :
    sumLens (objs.foldl (fun a obj => dictAppend obj.type obj a) acc)
      = sumLens acc + objs.length := by
  induction objs generalizing acc with
  | nil => simp
  | cons obj rest ih =>
      simpa [List.foldl_cons, ih, sumLens_dictAppend] using by omega

theorem sumLens_groupByType (objs : List ObjectInfo) :
    sumLens (groupByType objs) = objs.length := by
  simpa [groupByType] using
    (sumLens_groupByType_aux objs []).trans (by simp [sumLens])

theorem mem_dictAppend {α : Type} (k : String) (v : α) (q : String × List α)
    (l : List (String × List α)) (hq : q ∈ dictAppend k v l) :
    q ∈ l ∨ q.2 ≠ [] := by
  induction l with
  | nil =>
      simp [dictAppend] at hq
      subst hq; simp
  | cons p rest ih =>
      by_cases h : p.1 = k
      · cases p
        simp_all [dictAppend]
        rcases hq with hq | hq
        · right; subst hq; simp
        · left; exact Or.inr hq
      · cases p
        simp_all [dictAppend]
        rcases hq with hq | hq
        · left; exact Or.inl hq
        · rcases ih hq with h2 | h2
          · left; exact Or.inr h2
          · right; exact h2

theorem groupByType_nonempty_aux (objs : List ObjectInfo)
    (acc : List (String × List ObjectInfo))
    (hacc : ∀ q ∈ acc, q.2 ≠ []) :
    ∀ q ∈ objs.foldl (fun a obj => dictAppend obj.type obj a) acc, q.2 ≠ [] := by
  induction objs generalizing acc with
  | nil => simpa using hacc
  | cons obj rest ih =>
      intro q hq
      refine ih (dictAppend obj.type obj acc) ?_ q (by simpa using hq)
      intro q2 hq2
      rcases mem_dictAppend _ _ _ _ hq2 with h | h
      · exact hacc q2 h
      · exact h

theorem groupByType_nonempty (objs : List ObjectInfo) :
    ∀ q ∈ groupByType objs, q.2 ≠ [] := by
  simpa [groupByType] using groupByType_nonempty_aux objs [] (by simp)

theorem dictAppend_keys {α : Type} (k : String) (v : α)
    (l : List (String × List α)) :
    (dictAppend k v l).map Prod.fst =
      if k ∈ l.map Prod.fst then l.map Prod.fst else l.map Prod.fst ++ [k] := by
  induction l with
  | nil => simp [dictAppend]
  | cons p rest ih =>
      by_cases h : p.1 = k
      · cases p; simp_all [dictAppend]
      · cases p
        simp_all [dictAppend]
        by_cases h2 : k ∈ rest.map Prod.fst <;>
          simp_all [eq_comm (a := k)]

theorem dictAppend_keys_nodup {α : Type} (k : String) (v : α)
    (l : List (String × List α)) (h : (l.map Prod.fst).Nodup) :
    ((dictAppend k v l).map Prod.fst).Nodup := by
  rw [dictAppend_keys]
  by_cases h2 : k ∈ l.map Prod.fst
  · simpa [h2]
  · simpa [h2, List.nodup_append] using h

theorem groupByType_keys_nodup_aux (objs : List ObjectInfo)
    (acc : List (String × List ObjectInfo))
    (hacc : (acc.map Prod.fst).Nodup) :
    ((objs.foldl (fun a obj => dictAppend obj.type obj a) acc).map Prod.fst).Nodup := by
  induction objs generalizing acc with
  | nil => simpa using hacc
  | cons obj rest ih =>
      exact ih (dictAppend obj.type obj acc) (dictAppend_keys_nodup _ _ _ hacc)

theorem groupByType_keys_nodup (objs : List ObjectInfo) :
    ((groupByType objs).map Prod.fst).Nodup :=
  groupByType_keys_nodup_aux objs [] (by simp)

theorem dictLookup_map_val {α β : Type} (f : α → β) (k : String)
    (l : List (String × α)) :
    dictLookup k (l.map fun p => (p.1, f p.2)) = (dictLookup k l).map f := by
  induction l with
  | nil => rfl
  | cons p rest ih =>
      by_cases h : p.1 = k
      · cases p; simp_all [dictLookup]
      · cases p; simp_all [dictLookup]

theorem dictLookup_of_mem {α : Type} (q : String × α) (l : List (String × α))
    (hnd : (l.map Prod.fst).Nodup) (hq : q ∈ l) :
    dictLookup q.1 l = some q.2 := by
  induction l with
  | nil => simp at hq
  | cons p rest ih =>
      rcases List.mem_cons.mp hq with h | h
      · subst h; simp [dictLookup]
      · have hne : p.1 ≠ q.1 := by
          intro he
          have : q.1 ∈ rest.map Prod.fst := List.mem_map_of_mem Prod.fst h
          simp [List.nodup_cons, he] at hnd
          exact hnd.1 q.2 (by simpa using h)
        cases p
        simp_all [dictLookup]

theorem mem_dictInsert {α : Type} (k : String) (v : α) (p : String × α)
    (l : List (String × α)) (hp : p ∈ dictInsert k v l) :
    p = (k, v) ∨ p ∈ l := by
  induction l with
  | nil => simp [dictInsert] at hp; simp [hp]
  | cons p2 rest ih =>
      by_cases h : p2.1 = k
      · cases p2
        simp_all [dictInsert]
        tauto
      · cases p2
        simp_all [dictInsert]
        tauto

theorem keyMem_iff_mem_keys {α : Type} (k : String) (l : List (String × α)) :
    keyMem k l ↔ k ∈ l.map Prod.fst := by
  constructor
  · rintro ⟨v, hv⟩
    exact List.mem_map_of_mem Prod.fst hv
  · intro h
    rcases List.mem_map.mp h with ⟨p, hp, hk⟩
    exact ⟨p.2, by simpa [← hk] using hp⟩

theorem dictInsert_keys {α : Type} (k : String) (v : α)
    (l : List (String × α)) :
    (dictInsert k v l).map Prod.fst =
      if k ∈ l.map Prod.fst then l.map Prod.fst else l.map Prod.fst ++ [k] := by
  induction l with
  | nil => simp [dictInsert]
  | cons p rest ih =>
      by_cases h : p.1 = k
      · cases p; simp_all [dictInsert]
      · cases p
        simp_all [dictInsert]
        by_cases h2 : k ∈ rest.map Prod.fst <;>
          simp_all [eq_comm (a := k)]

theorem keyMem_dictInsert_self {α : Type} (k : String) (v : α)
    (l : List (String × α)) : keyMem k (dictInsert k v l) := by
  rw [keyMem_iff_mem_keys, dictInsert_keys]
  by_cases h : k ∈ l.map Prod.fst <;> simp [h]

theorem keyMem_dictInsert_mono {α : Type} (k k2 : String) (v : α)
    (l : List (String × α)) (hk : keyMem k l) :
    keyMem k (dictInsert k2 v l) := by
  rw [keyMem_iff_mem_keys] at hk ⊢
  rw [dictInsert_keys]
  by_cases h : k2 ∈ l.map Prod.fst <;> simp [h, hk]

theorem mem_inventory_fold (store : Store) (spaces : List Space)
    (init : List (String × SpaceEntry)) (p : String × SpaceEntry)
    (hp : p ∈ spaces.foldl
      (fun inventory space =>
        dictInsert space.id (buildSpaceEntry store space) inventory) init) :
    p ∈ init ∨ ∃ space ∈ spaces, p = (space.id, buildSpaceEntry store space) := by
  induction spaces generalizing init with
  | nil => exact Or.inl (by simpa using hp)
  | cons sp rest ih =>
      rcases ih (dictInsert sp.id (buildSpaceEntry store sp) init) (by simpa using hp)
        with h | ⟨sp2, hsp2, hep⟩
      · rcases mem_dictInsert _ _ _ _ h with h2 | h2
        · exact Or.inr ⟨sp, by simp, h2⟩
        · exact Or.inl h2
      · exact Or.inr ⟨sp2, by simp [hsp2], hep⟩

/-- Every entry of `generate_kibana_inventory` is the entry built for
one of the enumerated spaces, stored under that space's id. -/
theorem mem_generate_kibana_inventory (store : Store) (p : String × SpaceEntry)
    (hp : p ∈ generate_kibana_inventory store) :
    ∃ space ∈ store.spaces, p = (space.id, buildSpaceEntry store space) := by
  unfold generate_kibana_inventory at hp
  by_cases h : store.spaces.isEmpty
  · simp [h] at hp
  · simp only [h, if_false] at hp
    rcases mem_inventory_fold store store.spaces [] p hp with h2 | h2
    · simp at h2
    · exact h2

theorem keyMem_inventory_fold (store : Store) (spaces : List Space)
    (init : List (String × SpaceEntry)) (sp : Space)
    (hsp : sp ∈ spaces ∨ keyMem sp.id init) :
    keyMem sp.id (spaces.foldl
      (fun inventory space =>
        dictInsert space.id (buildSpaceEntry store space) inventory) init) := by
  induction spaces generalizing init with
  | nil => simpa using hsp.resolve_left (by simp)
  | cons sp2 rest ih =>
      simp only [List.foldl_cons]
      refine ih (dictInsert sp2.id (buildSpaceEntry store sp2) init) ?_
      rcases hsp with h | h
      · rcases List.mem_cons.mp h with h2 | h2
        · subst h2
          exact Or.inr (keyMem_dictInsert_self _ _ _)
        · exact Or.inl h2
      · exact Or.inr (keyMem_dictInsert_mono _ _ _ _ h)

/-! Lemmas rewriting the accumulating folds as flattened maps. -/

theorem foldl_append_eq {α β : Type} (f : α → List β) (l : List α)
    (init : List β) :
    l.foldl (fun acc x => acc ++ f x) init = init ++ (l.map f).flatten := by
  induction l generalizing init with
  | nil => simp
  | cons x rest ih => simp [ih]

theorem foldl_skip_append {α β : Type} (c : α → Bool) (f : α → List β)
    (l : List α) (init : List β) :
    l.foldl (fun acc x => if c x then acc else acc ++ f x) init
      = init ++ (l.map (fun x => if c x then [] else f x)).flatten := by
  induction l generalizing init with
  | nil => simp
  | cons x rest ih =>
      by_cases h : c x <;> simp [h, ih]

/-- The per-space search body as a flattened map over the type list. -/
theorem searchSpace_eq (store : Store) (target : String) (space : Space) :
    searchSpace store target space
      = (search_object_types.map (fun obj_type =>
          if store.findFails space.id obj_type then []
          else ((store.findObjects space.id obj_type).filter
              (fun o => o.id = target)).map
            (searchRecordOfSavedObj space.id (space.name.getD space.id)))).flatten
        ++ (if store.dataViewsFails space.id then []
            else ((store.dataViews space.id).filter (fun dv => dv.id = target)).map
              (searchRecordOfDataView space.id (space.name.getD space.id))) := by
  unfold searchSpace
  dsimp only
  rw [foldl_skip_append]
  simp

/-- The search over all spaces as a flattened map over the spaces. -/
theorem search_object_by_id_eq (store : Store) (target : String) :
    search_object_by_id store target
      = (store.spaces.map (searchSpace store target)).flatten := by
  unfold search_object_by_id
  by_cases h : store.spaces.isEmpty
  · rw [List.isEmpty_iff] at h
    simp [h]
  · simp only [h, if_false]
    rw [foldl_append_eq]
    simp

theorem searchSpace_length (store : Store) (target : String) (space : Space)
    (hf : ∀ t, store.findFails space.id t = false)
    (hd : store.dataViewsFails space.id = false) :
    (searchSpace store target space).length
      = spaceMatchCount store target space.id := by
  rw [searchSpace_eq]
  simp only [List.length_append, List.length_flatten, List.map_map,
    Function.comp_def]
  unfold spaceMatchCount
  have hmap : ∀ t ∈ search_object_types,
      (if store.findFails space.id t then ([] : List SearchRecord)
        else ((store.findObjects space.id t).filter (fun o => o.id = target)).map
          (searchRecordOfSavedObj space.id (space.name.getD space.id))).length
      = ((store.findObjects space.id t).filter (fun o => o.id = target)).length := by
    intro t _
    simp [hf t]
  rw [List.map_congr_left hmap]
  simp [hd]

theorem searchSpace_length_le (store : Store) (target : String)
    (space : Space) :
    (searchSpace store target space).length
      ≤ spaceMatchCount store target space.id := by
  rw [searchSpace_eq]
  simp only [List.length_append, List.length_flatten, List.map_map]
  unfold spaceMatchCount
  apply Nat.add_le_add
  · apply List.sum_le_sum
    intro t ht
    by_cases hc : store.findFails space.id t <;> simp [hc, Function.comp]
  · by_cases hc : store.dataViewsFails space.id <;> simp [hc]

theorem searchSpace_of_count_zero (store : Store) (target : String)
    (space : Space)
    (h : spaceMatchCount store target space.id = 0) :
    searchSpace store target space = [] := by
  have h2 := searchSpace_length_le store target space
  rw [h] at h2
  exact List.length_eq_zero.mp (Nat.le_zero.mp h2)

theorem searchSpace_space_id (store : Store) (target : String)
    (space : Space) (r : SearchRecord)
    (hr : r ∈ searchSpace store target space) :
    r.space_id = space.id := by
  rw [searchSpace_eq] at hr
  rcases List.mem_append.mp hr with h | h
  · rcases List.mem_flatten.mp h with ⟨l1, hl1, hrl⟩
    rcases List.mem_map.mp hl1 with ⟨t, _, hl⟩
    subst hl
    by_cases hc : store.findFails space.id t
    · simp [hc] at hrl
    · simp only [hc, Bool.false_eq_true, if_false] at hrl
      rcases List.mem_map.mp hrl with ⟨o, _, hro⟩
      rw [← hro]
      rfl
  · by_cases hc : store.dataViewsFails space.id
    · simp [hc] at h
    · simp only [hc, Bool.false_eq_true, if_false] at h
      rcases List.mem_map.mp h with ⟨dv, _, hrd⟩
      rw [← hrd]
      rfl

/-! Counting lemmas over the space list. -/

theorem sum_ids_eq_zero (l : List Space) (f : String → Nat)
    (hf : ∀ sp ∈ l, f sp.id = 0) :
    (l.map (fun sp => f sp.id)).sum = 0 := by
  induction l with
  | nil => rfl
  | cons sp rest ih =>
      simp [hf sp (by simp), ih (fun q hq => hf q (by simp [hq]))]

theorem sum_ids_eq_one (l : List Space) (f : String → Nat) (a : String)
    (hnd : (l.map Space.id).Nodup)
    (ha : ∃ sp ∈ l, sp.id = a)
    (hf : ∀ sp ∈ l, f sp.id = if sp.id = a then 1 else 0) :
    (l.map (fun sp => f sp.id)).sum = 1 := by
  induction l with
  | nil => simp at ha
  | cons sp rest ih =>
      simp only [List.map_cons, List.sum_cons]
      rcases ha with ⟨sp0, hsp0, hid⟩
      have hnd' := hnd
      rw [List.map_cons, List.nodup_cons] at hnd'
      have hnd2 : (rest.map Space.id).Nodup := hnd'.2
      by_cases h : sp.id = a
      · have hnot : a ∉ rest.map Space.id := h ▸ hnd'.1
        have hz : (rest.map (fun sp => f sp.id)).sum = 0 := by
          apply sum_ids_eq_zero
          intro q hq
          have hqa : q.id ≠ a := fun he =>
            hnot (he ▸ List.mem_map_of_mem Space.id hq)
          simp [hf q (by simp [hq]), hqa]
        rw [hf sp (by simp), if_pos h, hz]
      · have hrest : ∃ sp2 ∈ rest, sp2.id = a := by
          rcases List.mem_cons.mp hsp0 with h2 | h2
          · exact absurd (h2 ▸ hid) h
          · exact ⟨sp0, h2, hid⟩
        have hs := ih hnd2 hrest (fun q hq => hf q (by simp [hq]))
        rw [hf sp (by simp), if_neg h, hs]

theorem sum_ids_eq_two (l : List Space) (f : String → Nat) (a b : String)
    (hab : a ≠ b) (hnd : (l.map Space.id).Nodup)
    (ha : ∃ sp ∈ l, sp.id = a) (hb : ∃ sp ∈ l, sp.id = b)
    (hf : ∀ sp ∈ l, f sp.id =
      if sp.id = a then 1 else if sp.id = b then 1 else 0) :
    (l.map (fun sp => f sp.id)).sum = 2 := by
  induction l with
  | nil => simp at ha
  | cons sp rest ih =>
      simp only [List.map_cons, List.sum_cons]
      have hnd' := hnd
      rw [List.map_cons, List.nodup_cons] at hnd'
      have hnd2 : (rest.map Space.id).Nodup := hnd'.2
      have hhead : sp.id ∉ rest.map Space.id := hnd'.1
      by_cases hca : sp.id = a
      · have hbrest : ∃ sp2 ∈ rest, sp2.id = b := by
          rcases hb with ⟨sp0, hsp0, hid⟩
          rcases List.mem_cons.mp hsp0 with h2 | h2
          · exact absurd (h2 ▸ hid) (hca ▸ hab)
          · exact ⟨sp0, h2, hid⟩
        have h1 : (rest.map (fun sp => f sp.id)).sum = 1 := by
          apply sum_ids_eq_one rest f b hnd2 hbrest
          intro q hq
          have hqa : q.id ≠ a := fun he =>
            hhead (by rw [hca, ← he]; exact List.mem_map_of_mem Space.id hq)
          simp [hf q (by simp [hq]), hqa]
        rw [hf sp (by simp), if_pos hca, h1]
      · by_cases hcb : sp.id = b
        · have harest : ∃ sp2 ∈ rest, sp2.id = a := by
            rcases ha with ⟨sp0, hsp0, hid⟩
            rcases List.mem_cons.mp hsp0 with h2 | h2
            · exact absurd (h2 ▸ hid) hca
            · exact ⟨sp0, h2, hid⟩
          have h1 : (rest.map (fun sp => f sp.id)).sum = 1 := by
            apply sum_ids_eq_one rest f a hnd2 harest
            intro q hq
            have hqb : q.id ≠ b := fun he =>
              hhead (by rw [hcb, ← he]; exact List.mem_map_of_mem Space.id hq)
            rw [hf q (by simp [hq])]
            by_cases hqa : q.id = a <;> simp [hqa, hqb]
          rw [hf sp (by simp), if_neg hca, if_pos hcb, h1]
        · have harest : ∃ sp2 ∈ rest, sp2.id = a := by
            rcases ha with ⟨sp0, hsp0, hid⟩
            rcases List.mem_cons.mp hsp0 with h2 | h2
            · exact absurd (h2 ▸ hid) hca
            · exact ⟨sp0, h2, hid⟩
          have hbrest : ∃ sp2 ∈ rest, sp2.id = b := by
            rcases hb with ⟨sp0, hsp0, hid⟩
            rcases List.mem_cons.mp hsp0 with h2 | h2
            · exact absurd (h2 ▸ hid) hcb
            · exact ⟨sp0, h2, hid⟩
          have hs := ih hnd2 harest hbrest (fun q hq => hf q (by simp [hq]))
          rw [hf sp (by simp), if_neg hca, if_neg hcb, hs]

/-! Lemmas about runs over stores with empty payloads, the search
length over the whole space list, and the gem result map. -/

theorem get_kibana_objects_by_type_empty (store : Store) (space_id : String)
    (object_types : List String)
    (h : ∀ t, store.findObjects space_id t = []) :
    get_kibana_objects_by_type store space_id object_types = [] := by
  unfold get_kibana_objects_by_type
  have hgen : ∀ (ts : List String) (init : List ObjectInfo),
      ts.foldl (fun all_objects obj_type =>
        if store.findFails space_id obj_type then all_objects
        else all_objects ++
          (store.findObjects space_id obj_type).map
            (objectInfoOfSavedObj space_id)) init = init := by
    intro ts
    induction ts with
    | nil => intro init; rfl
    | cons t rest ih =>
        intro init
        by_cases hc : store.findFails space_id t <;> simp [hc, h t, ih]
  exact hgen object_types []

theorem get_data_views_empty (store : Store) (space_id : String)
    (h : store.dataViews space_id = []) :
    get_data_views store space_id = [] := by
  unfold get_data_views
  by_cases hc : store.dataViewsFails space_id <;> simp [hc, h]

theorem search_object_by_id_length (store : Store) (target : String)
    (hf : ∀ sid t, store.findFails sid t = false)
    (hd : ∀ sid, store.dataViewsFails sid = false) :
    (search_object_by_id store target).length
      = (store.spaces.map (fun sp => spaceMatchCount store target sp.id)).sum := by
  rw [search_object_by_id_eq, List.length_flatten, List.map_map]
  exact congrArg List.sum (List.map_congr_left (fun sp _ =>
    searchSpace_length store target sp (fun t => hf sp.id t) (hd sp.id)))

theorem search_object_by_id_filter_length (store : Store) (target a : String)
    (hf : ∀ sid t, store.findFails sid t = false)
    (hd : ∀ sid, store.dataViewsFails sid = false)
    (hnd : (store.spaces.map Space.id).Nodup)
    (haex : ∃ sp ∈ store.spaces, sp.id = a)
    (hcnt : ∀ sp ∈ store.spaces, sp.id = a →
      spaceMatchCount store target sp.id = 1) :
    ((search_object_by_id store target).filter
      (fun r => r.space_id = a)).length = 1 := by
  rw [search_object_by_id_eq, List.filter_flatten, List.map_map,
    List.length_flatten, List.map_map]
  have hpt : ∀ sp ∈ store.spaces,
      ((searchSpace store target sp).filter (fun r => r.space_id = a)).length
        = (fun sid => if sid = a then 1 else 0) sp.id := by
    intro sp hsp
    by_cases hc : sp.id = a
    · have hall : (searchSpace store target sp).filter
          (fun r => r.space_id = a) = searchSpace store target sp := by
        rw [List.filter_eq_self]
        intro r hr
        simp [searchSpace_space_id store target sp r hr, hc]
      rw [hall, searchSpace_length store target sp (fun t => hf sp.id t) (hd sp.id),
        hcnt sp hsp hc]
      simp [hc]
    · have hnone : (searchSpace store target sp).filter
          (fun r => r.space_id = a) = [] := by
        rw [List.filter_eq_nil_iff]
        intro r hr
        simp [searchSpace_space_id store target sp r hr, hc]
      rw [hnone]
      simp [hc]
  exact (congrArg List.sum (List.map_congr_left hpt)).trans
    (sum_ids_eq_one store.spaces (fun sid => if sid = a then 1 else 0) a
      hnd haex (fun sp _ => rfl))

theorem search_object_by_id_all_zero (store : Store) (target : String)
    (h0 : ∀ sp ∈ store.spaces, spaceMatchCount store target sp.id = 0) :
    search_object_by_id store target = [] := by
  rw [search_object_by_id_eq]
  have hmap : store.spaces.map (searchSpace store target)
      = store.spaces.map (fun _ => []) :=
    List.map_congr_left (fun sp hsp =>
      searchSpace_of_count_zero store target sp (h0 sp hsp))
  rw [hmap]
  simp

theorem gem_fold_entries_nonempty (store : GemStore) (spaces : List GemSpace)
    (init : List (String × List GemObj)) (hinit : ∀ p ∈ init, p.2 ≠ []) :
    ∀ p ∈ spaces.foldl
      (fun all_kibana_objects_by_space space =>
        match space.id with
        | none => all_kibana_objects_by_space
        | some space_id =>
            let objects_in_space := list_kibana_objects_in_space store space_id
            if objects_in_space.isEmpty then all_kibana_objects_by_space
            else dictInsert space_id objects_in_space all_kibana_objects_by_space)
      init, p.2 ≠ [] := by
  induction spaces generalizing init with
  | nil => simpa using hinit
  | cons sp rest ih =>
      intro p hp
      simp only [List.foldl_cons] at hp
      match hsp : sp.id with
      | none =>
          rw [hsp] at hp
          exact ih init hinit p hp
      | some space_id =>
          rw [hsp] at hp
          dsimp only at hp
          by_cases hc : (list_kibana_objects_in_space store space_id).isEmpty
          · rw [if_pos hc] at hp
            exact ih init hinit p hp
          · rw [if_neg hc] at hp
            refine ih _ ?_ p hp
            intro q hq
            rcases mem_dictInsert _ _ _ _ hq with h2 | h2
            · subst h2
              simpa [List.isEmpty_iff] using hc
            · exact hinit q h2

/-- Every value stored in the gem script's final
`all_kibana_objects_by_space` map is a non-empty object list: a space
that yielded zero objects is never added to the map. -/
theorem gem_main_entries_nonempty (store : GemStore) :
    ∀ p ∈ gem_main store, p.2 ≠ [] := by
  unfold gem_main
  by_cases h : store.spaces.isEmpty
  · simp [h]
  · simp only [h, if_false]
    exact gem_fold_entries_nonempty store store.spaces [] (by simp)

/-! Lemmas about the spec-modelled first-match search. -/

theorem firstMatchGo_validates (fuzzy : String → List SavedObj)
    (target : String) (spaces : List Space) (r : SearchRecord)
    (h : (firstMatchGo fuzzy target spaces).1 = some r) : r.id = target := by
  induction spaces with
  | nil => simp [firstMatchGo] at h
  | cons sp rest ih =>
      unfold firstMatchGo at h
      cases hm : (fuzzy sp.id).filter (fun o => o.id = target) with
      | nil =>
          rw [hm] at h
          exact ih h
      | cons o os =>
          rw [hm] at h
          dsimp only at h
          have ho : o ∈ (fuzzy sp.id).filter (fun o => o.id = target) := by
            rw [hm]; exact List.mem_cons_self o os
          have hid : o.id = target := by
            have := (List.mem_filter.mp ho).2
            simpa using this
          cases h
          exact hid

theorem firstMatchGo_stops (fuzzy : String → List SavedObj) (target : String)
    (pre : List Space) (sp : Space) (post : List Space)
    (hpre : ∀ q ∈ pre, (fuzzy q.id).filter (fun o => o.id = target) = [])
    (hsp : (fuzzy sp.id).filter (fun o => o.id = target) ≠ []) :
    (∃ r, (firstMatchGo fuzzy target (pre ++ sp :: post)).1 = some r
      ∧ r.space_id = sp.id)
    ∧ (firstMatchGo fuzzy target (pre ++ sp :: post)).2
        = pre.map Space.id ++ [sp.id] := by
  induction pre with
  | nil =>
      cases hm : (fuzzy sp.id).filter (fun o => o.id = target) with
      | nil => exact absurd hm hsp
      | cons o os =>
          constructor
          · refine ⟨searchRecordOfSavedObj sp.id (sp.name.getD sp.id) o, ?_, rfl⟩
            simp [firstMatchGo, hm]
          · simp [firstMatchGo, hm]
  | cons q pre2 ih =>
      have hq : (fuzzy q.id).filter (fun o => o.id = target) = [] :=
        hpre q (by simp)
      obtain ⟨⟨r, hr1, hr2⟩, hreqs⟩ :=
        ih (fun x hx => hpre x (by simp [hx]))
      rw [List.cons_append]
      constructor
      · refine ⟨r, ?_, hr2⟩
        unfold firstMatchGo
        rw [hq]
        exact hr1
      · unfold firstMatchGo
        rw [hq]
        simp [hreqs]

/-! The claims. -/

/-- C1: for every entry of the snapshot produced by
`generate_kibana_inventory`, `total_objects` equals the sum of the
`type_counts` values, equals the sum of the lengths of the lists in
`objects_by_type`, and `type_counts[t]` equals
`len(objects_by_type[t])` for every type `t` present in the entry. -/
theorem inventory_totals_reconcile (store : Store) (p : String × SpaceEntry)
    (hp : p ∈ generate_kibana_inventory store) :
    p.2.total_objects = sumCounts p.2.type_counts
    ∧ p.2.total_objects = sumLens p.2.objects_by_type
    ∧ ∀ q ∈ p.2.objects_by_type,
        dictLookup q.1 p.2.type_counts = some q.2.length := by
  rcases mem_generate_kibana_inventory store p hp with ⟨sp, _, rfl⟩
  unfold buildSpaceEntry
  dsimp only
  refine ⟨?_, ?_, ?_⟩
  · rw [sumCounts_map_length, sumLens_groupByType]
  · rw [sumLens_groupByType]
  · intro q hq
    rw [dictLookup_map_val List.length q.1, dictLookup_of_mem q _
      (groupByType_keys_nodup _) hq]
    rfl

/-- C1 witness: the invariant evaluated on a concrete store. -/
theorem inventory_totals_reconcile_witness :
    (("alpha", buildSpaceEntry storeTwoSpacesDup
        { id := "alpha", name := some "Alpha" })
      ∈ generate_kibana_inventory storeTwoSpacesDup)
    ∧ (buildSpaceEntry storeTwoSpacesDup
        { id := "alpha", name := some "Alpha" }).total_objects
      = sumCounts (buildSpaceEntry storeTwoSpacesDup
        { id := "alpha", name := some "Alpha" }).type_counts := by
  have hmem : ("alpha", buildSpaceEntry storeTwoSpacesDup
      { id := "alpha", name := some "Alpha" })
      ∈ generate_kibana_inventory storeTwoSpacesDup := by decide
  exact ⟨hmem, (inventory_totals_reconcile storeTwoSpacesDup _ hmem).1⟩

/-- C9: for every entry built by `generate_kibana_inventory`, the key
set of `type_counts` equals the key set of `objects_by_type`, and
every list stored in `objects_by_type` is non-empty — a type that
contributed zero objects is absent from both mappings. -/
theorem inventory_type_keys_match (store : Store) (p : String × SpaceEntry)
    (hp : p ∈ generate_kibana_inventory store) :
    p.2.type_counts.map Prod.fst = p.2.objects_by_type.map Prod.fst
    ∧ ∀ q ∈ p.2.objects_by_type, q.2 ≠ [] := by
  rcases mem_generate_kibana_inventory store p hp with ⟨sp, _, rfl⟩
  unfold buildSpaceEntry
  dsimp only
  constructor
  · rw [List.map_map]
    exact List.map_congr_left (fun q _ => rfl)
  · exact groupByType_nonempty _

/-- C9 witness: the key sets evaluated on a concrete store. -/
theorem inventory_type_keys_match_witness :
    (("beta", buildSpaceEntry storeTwoSpacesDup
        { id := "beta", name := some "Beta" })
      ∈ generate_kibana_inventory storeTwoSpacesDup)
    ∧ (buildSpaceEntry storeTwoSpacesDup
        { id := "beta", name := some "Beta" }).type_counts.map Prod.fst
      = (buildSpaceEntry storeTwoSpacesDup
        { id := "beta", name := some "Beta" }).objects_by_type.map Prod.fst := by
  have hmem : ("beta", buildSpaceEntry storeTwoSpacesDup
      { id := "beta", name := some "Beta" })
      ∈ generate_kibana_inventory storeTwoSpacesDup := by decide
  exact ⟨hmem, (inventory_type_keys_match storeTwoSpacesDup _ hmem).1⟩

/-- C5: record normalization is total and maps each input shape to the
canonical record: a generic saved object missing `attributes.title`
normalizes with title `"N/A"` (description defaults to `""`,
`updated_at` to `"N/A"`, in both the inventory and the search
normalizer); a data view normalizes with `object_type` the literal
`"data-view"`, description equal to the source's `name` field, and, in
the search-mode record that carries them, `updated_at`, `created_at`
and `version` all `"N/A"`. -/
theorem normalization_defaults :
    (∀ (space_id : String) (obj : SavedObj),
      ((obj.attributes.getD ⟨none, none⟩).title = none →
        (objectInfoOfSavedObj space_id obj).title = "N/A")
      ∧ ((obj.attributes.getD ⟨none, none⟩).description = none →
        (objectInfoOfSavedObj space_id obj).description = "")
      ∧ (obj.updated_at = none →
        (objectInfoOfSavedObj space_id obj).updated_at = "N/A"))
    ∧ (∀ (space_id space_name : String) (obj : SavedObj),
      (obj.attributes.getD ⟨none, none⟩).title = none →
        (searchRecordOfSavedObj space_id space_name obj).title = "N/A")
    ∧ (∀ (space_id : String) (dv : DataView),
      (dataViewInfo space_id dv).type = "data-view"
      ∧ (∀ nm, dv.name = some nm → (dataViewInfo space_id dv).description = nm)
      ∧ (dataViewInfo space_id dv).updated_at = "N/A")
    ∧ (∀ (space_id space_name : String) (dv : DataView),
      (searchRecordOfDataView space_id space_name dv).type = "data-view"
      ∧ (∀ nm, dv.name = some nm →
          (searchRecordOfDataView space_id space_name dv).description = nm)
      ∧ (searchRecordOfDataView space_id space_name dv).updated_at = "N/A"
      ∧ (searchRecordOfDataView space_id space_name dv).created_at = "N/A"
      ∧ (searchRecordOfDataView space_id space_name dv).version = "N/A") := by
  refine ⟨fun space_id obj => ⟨?_, ?_, ?_⟩, fun space_id space_name obj h => ?_,
    fun space_id dv => ⟨rfl, fun nm h => ?_, rfl⟩,
    fun space_id space_name dv => ⟨rfl, fun nm h => ?_, rfl, rfl, rfl⟩⟩
  · intro h; simp [objectInfoOfSavedObj, h]
  · intro h; simp [objectInfoOfSavedObj, h]
  · intro h; simp [objectInfoOfSavedObj, h]
  · simp [searchRecordOfSavedObj, h]
  · simp [dataViewInfo, h]
  · simp [searchRecordOfDataView, h]

/-- C5 witness: the defaults evaluated on concrete raw entries. -/
theorem normalization_defaults_witness :
    ((({ id := "o1", type := "dashboard", attributes := none,
          updated_at := none, created_at := none, version := none } :
        SavedObj).attributes.getD ⟨none, none⟩).title = none
      ∧ (objectInfoOfSavedObj "s"
          { id := "o1", type := "dashboard", attributes := none,
            updated_at := none, created_at := none, version := none }).title
        = "N/A")
    ∧ (searchRecordOfSavedObj "s" "S"
        { id := "o1", type := "dashboard", attributes := none,
          updated_at := none, created_at := none, version := none }).title
      = "N/A"
    ∧ (dataViewInfo "s" { id := "dv1", title := none, name := some "Nm" }).description
      = "Nm"
    ∧ (searchRecordOfDataView "s" "S"
        { id := "dv1", title := none, name := some "Nm" }).created_at = "N/A" := by
  refine ⟨⟨rfl, ?_⟩, ?_, ?_, ?_⟩
  · exact (normalization_defaults.1 "s" _).1 rfl
  · exact normalization_defaults.2.1 "s" "S" _ rfl
  · exact ((normalization_defaults.2.2.1 "s" _).2.1 "Nm" rfl)
  · exact (normalization_defaults.2.2.2 "s" "S" _).2.2.2.1

/-- C10: a single stored data view with the target id, served both by
the generic saved-objects query (as an `index-pattern`, a type the
search sweep includes) and by the dedicated data-view endpoint of the
same space, yields two search records with equal `space_id` — so a
duplicate-identifier finding does not imply the id occurs in two
different spaces. -/
theorem search_same_space_duplicate :
    (search_object_by_id storeSameSpaceDup "dup-1").length = 2
    ∧ (search_object_by_id storeSameSpaceDup "dup-1").map SearchRecord.space_id
      = ["default", "default"]
    ∧ (search_object_by_id storeSameSpaceDup "dup-1").map SearchRecord.type
      = ["index-pattern", "data-view"] := by decide

/-- C6 counterexample: in search mode, a run whose space enumeration
came back empty still completes with status 0, not a non-zero
status. -/
theorem main_search_zero_status_counterexample :
    storeEmptySpaces.spaces = [] ∧ main_search storeEmptySpaces "abc123" = (0, []) :=
  ⟨rfl, rfl⟩

/-- C6 amended: when space enumeration fails or returns an empty
sequence, both modes perform no per-space fetches and return an empty
result; the inventory branch of `main` reports failure with completion
status 1, but the search branch completes with status 0. -/
theorem fatal_empty_spaces (store : Store) (object_id : String)
    (h : store.spaces = []) :
    main_inventory store = (1, []) ∧ inventoryRequests store = []
    ∧ main_search store object_id = (0, []) ∧ searchRequests store = [] := by
  simp [main_inventory, main_search, generate_kibana_inventory,
    search_object_by_id, inventoryRequests, searchRequests, h]

/-- C6 amended witness: evaluated on the concrete empty-enumeration
store. -/
theorem fatal_empty_spaces_witness :
    storeEmptySpaces.spaces = []
    ∧ main_inventory storeEmptySpaces = (1, [])
    ∧ inventoryRequests storeEmptySpaces = []
    ∧ main_search storeEmptySpaces "xyz" = (0, [])
    ∧ searchRequests storeEmptySpaces = [] := by
  have h := fatal_empty_spaces storeEmptySpaces "xyz" rfl
  exact ⟨rfl, h.1, h.2.1, h.2.2.1, h.2.2.2⟩

/-- C7 counterexample: in the gem variant, a space that yields zero
objects is omitted from the final map rather than appearing with an
empty entry, although the enumerator returned it. -/
theorem gem_empty_space_omitted :
    gstoreEmptySpace.spaces.length = 1 ∧ gem_main gstoreEmptySpace = [] := by
  refine ⟨rfl, ?_⟩
  simp [gem_main, gstoreEmptySpace, list_kibana_objects_in_space, sweep,
    gem_object_types, pageLoop]

/-- C7 amended: in `generate_kibana_inventory` every enumerated space
appears as an entry of the snapshot, with `total_objects = 0` when the
space yields zero objects; in the gem variant, by contrast, every
entry of the final map has a non-empty object list, so a space
yielding zero objects is omitted there. -/
theorem space_presence_per_variant :
    (∀ (store : Store) (sp : Space), sp ∈ store.spaces →
      (∃ e, (sp.id, e) ∈ generate_kibana_inventory store)
      ∧ ∀ e, (sp.id, e) ∈ generate_kibana_inventory store →
          (∀ t, store.findObjects sp.id t = []) →
          store.dataViews sp.id = [] → e.total_objects = 0)
    ∧ ∀ (gstore : GemStore), ∀ p ∈ gem_main gstore, p.2 ≠ [] := by
  constructor
  · intro store sp hsp
    constructor
    · have hne : store.spaces.isEmpty = false := by
        cases hs : store.spaces with
        | nil => rw [hs] at hsp; simp at hsp
        | cons a l => simp [hs]
      unfold generate_kibana_inventory
      rw [hne]
      simp only [Bool.false_eq_true, if_false]
      exact keyMem_inventory_fold store store.spaces [] sp (Or.inl hsp)
    · intro e he hobj hdv
      rcases mem_generate_kibana_inventory store (sp.id, e) he with ⟨sp2, _, heq⟩
      have hid : sp2.id = sp.id := (congrArg Prod.fst heq).symm
      have hee : e = buildSpaceEntry store sp2 := congrArg Prod.snd heq
      subst hee
      unfold buildSpaceEntry
      dsimp only
      rw [hid, get_kibana_objects_by_type_empty store sp.id _ hobj,
        get_data_views_empty store sp.id hdv]
      rfl
  · exact gem_main_entries_nonempty

/-- C7 witness: a space with zero objects appears (with total 0) in
the main script's inventory, and a concrete entry of the gem map is
non-empty. -/
theorem space_presence_per_variant_witness :
    (∃ e, ("solo", e) ∈ generate_kibana_inventory storeOneEmptySpace
      ∧ e.total_objects = 0)
    ∧ (("g", [({ id := "c1", type := "config" } : GemObj)])
        ∈ gem_main gstoreOneObj
      ∧ [({ id := "c1", type := "config" } : GemObj)] ≠ []) := by
  constructor
  · obtain ⟨⟨e, he⟩, hz⟩ := space_presence_per_variant.1 storeOneEmptySpace
      { id := "solo", name := none } (by decide)
    exact ⟨e, he, hz e he (fun t => rfl) rfl⟩
  · have hmem : ("g", [({ id := "c1", type := "config" } : GemObj)])
        ∈ gem_main gstoreOneObj := by
      simp [gem_main, gstoreOneObj, list_kibana_objects_in_space, sweep,
        gem_object_types, pageLoop, dictInsert]
    exact ⟨hmem, space_presence_per_variant.2 gstoreOneObj _ hmem⟩

/-- C8: the first-match search mode (spec-modelled, see
`search_first_match`) re-validates every accepted hit by exact id
equality, and stops at the first space with a validated hit: the
accepted record comes from that space and the spaces after it are
never queried, while every fuzzy candidate failing re-validation is
rejected and the scan moves on. -/
theorem first_match_mode :
    (∀ (store : Store) (fuzzy : String → List SavedObj) (target : String)
        (r : SearchRecord),
      (search_first_match store fuzzy target).1 = some r → r.id = target)
    ∧ ∀ (store : Store) (fuzzy : String → List SavedObj) (target : String)
        (pre : List Space) (sp : Space) (post : List Space),
      store.spaces = pre ++ sp :: post →
      (∀ q ∈ pre, (fuzzy q.id).filter (fun o => o.id = target) = []) →
      (fuzzy sp.id).filter (fun o => o.id = target) ≠ [] →
      (∃ r, (search_first_match store fuzzy target).1 = some r
        ∧ r.id = target ∧ r.space_id = sp.id)
      ∧ (search_first_match store fuzzy target).2 = pre.map Space.id ++ [sp.id] := by
  constructor
  · intro store fuzzy target r h
    exact firstMatchGo_validates fuzzy target store.spaces r h
  · intro store fuzzy target pre sp post hspaces hpre hsp
    have h := firstMatchGo_stops fuzzy target pre sp post hpre hsp
    obtain ⟨⟨r, hr1, hr2⟩, hreqs⟩ := h
    refine ⟨⟨r, ?_, ?_, hr2⟩, ?_⟩
    · unfold search_first_match
      rw [hspaces]
      exact hr1
    · refine firstMatchGo_validates fuzzy target (pre ++ sp :: post) r hr1
    · unfold search_first_match
      rw [hspaces]
      exact hreqs

/-- C8 witness: on a concrete three-space store whose fuzzy filter
returns a near-miss in the first space, the hit is re-validated and
found in the second space, and the third space is never queried. -/
theorem first_match_mode_witness :
    (∃ r, (search_first_match storeThreeSpaces fuzzyOracle "target-9").1 = some r
      ∧ r.id = "target-9" ∧ r.space_id = "s2")
    ∧ (search_first_match storeThreeSpaces fuzzyOracle "target-9").2
      = ["s1", "s2"] := by
  have h := first_match_mode.2 storeThreeSpaces fuzzyOracle "target-9"
    [{ id := "s1", name := none }] { id := "s2", name := none }
    [{ id := "s3", name := none }] rfl (by decide) (by decide)
  exact ⟨h.1, h.2⟩

/-- C4: with every request succeeding and distinct space ids, if
exactly two spaces `A` and `B` each serve exactly one object with the
target id and every other space serves none, exhaustive search returns
exactly 2 records — one with `A`'s space id and one with `B`'s; and if
no space serves the target id, it returns the empty list (a not-found
outcome, not an error). -/
theorem search_duplicate_and_not_found :
    (∀ (store : Store) (target : String) (A B : Space),
      (∀ sid t, store.findFails sid t = false) →
      (∀ sid, store.dataViewsFails sid = false) →
      (store.spaces.map Space.id).Nodup →
      A ∈ store.spaces → B ∈ store.spaces → A.id ≠ B.id →
      (∀ sp ∈ store.spaces, spaceMatchCount store target sp.id =
        if sp.id = A.id then 1 else if sp.id = B.id then 1 else 0) →
      (search_object_by_id store target).length = 2
      ∧ ((search_object_by_id store target).filter
          (fun r => r.space_id = A.id)).length = 1
      ∧ ((search_object_by_id store target).filter
          (fun r => r.space_id = B.id)).length = 1)
    ∧ ∀ (store : Store) (target : String),
      (∀ sp ∈ store.spaces, spaceMatchCount store target sp.id = 0) →
      search_object_by_id store target = [] := by
  constructor
  · intro store target A B hf hd hnd hA hB hAB hcount
    refine ⟨?_, ?_, ?_⟩
    · rw [search_object_by_id_length store target hf hd]
      exact sum_ids_eq_two store.spaces (spaceMatchCount store target)
        A.id B.id hAB hnd ⟨A, hA, rfl⟩ ⟨B, hB, rfl⟩ hcount
    · refine search_object_by_id_filter_length store target A.id hf hd hnd
        ⟨A, hA, rfl⟩ ?_
      intro sp hsp hc
      rw [hcount sp hsp, if_pos hc]
    · refine search_object_by_id_filter_length store target B.id hf hd hnd
        ⟨B, hB, rfl⟩ ?_
      intro sp hsp hc
      rw [hcount sp hsp, if_neg (hc ▸ (Ne.symm hAB ·)), if_pos hc]
  · exact search_object_by_id_all_zero

/-- C4 witness: evaluated on a concrete store with the target id in
spaces `alpha` and `beta`, and on an absent id. -/
theorem search_duplicate_and_not_found_witness :
    ((search_object_by_id storeTwoSpacesDup "target-1").length = 2
      ∧ ((search_object_by_id storeTwoSpacesDup "target-1").filter
          (fun r => r.space_id = "alpha")).length = 1
      ∧ ((search_object_by_id storeTwoSpacesDup "target-1").filter
          (fun r => r.space_id = "beta")).length = 1)
    ∧ search_object_by_id storeTwoSpacesDup "absent-id" = [] := by
  refine ⟨?_, search_duplicate_and_not_found.2 storeTwoSpacesDup "absent-id"
    (by decide)⟩
  exact search_duplicate_and_not_found.1 storeTwoSpacesDup "target-1"
    { id := "alpha", name := some "Alpha" } { id := "beta", name := some "Beta" }
    (fun _ _ => rfl) (fun _ => rfl) (by decide) (by decide) (by decide)
    (by decide) (by decide)

/-- C2: the gem collector's page counter is never reset between object
types, so after type `config` (declared total 2500, `per_page` 1000)
is paged through pages 1-3, the request loop for type `config-global`
(declared total 1500) issues a single request, for page 3, instead of
the ceil(1500/1000) = 2 requests for pages 1 and 2 — fewer than the
claimed count although no request failed; and a type with declared
total 0 costs one probe request, not ceil(0/p) = 0. -/
theorem gem_pagination_request_counts :
    (sweep gstorePages "s" gem_object_types 1).2.take 3
      = [("config", [1, 2, 3]), ("config-global", [3]), ("url", [3])]
    ∧ (2500 + 1000 - 1) / 1000 = 3
    ∧ (1500 + 1000 - 1) / 1000 = 2
    ∧ (0 + 1000 - 1) / 1000 = 0 := by
  refine ⟨?_, by decide, by decide, by decide⟩
  simp [sweep, gem_object_types, pageLoop, gstorePages]

/-- C3: a failing request is not isolated to its (space, type) pair in
the gem collector: `gstoreNoFail` and `gstoreFailPage2` serve
identical payloads except that page 2 of type `config` fails in the
latter, yet the entries collected for the distinct pair
`("s", "config-global")` differ between the two runs, because the
failure leaves the shared page counter at the failed page. -/
theorem gem_failure_not_isolated :
    (list_kibana_objects_in_space gstoreNoFail "s").filter
        (fun o => o.type = "config-global")
      = [{ id := "cg3", type := "config-global" }]
    ∧ (list_kibana_objects_in_space gstoreFailPage2 "s").filter
        (fun o => o.type = "config-global")
      = [{ id := "cg2", type := "config-global" },
         { id := "cg3", type := "config-global" }] := by
  constructor
  · simp [list_kibana_objects_in_space, sweep, gem_object_types, pageLoop,
      gstoreNoFail]
  · simp [list_kibana_objects_in_space, sweep, gem_object_types, pageLoop,
      gstoreFailPage2]

end Kibana









